import Mathlib

/-!
Verification development for the opc-scada-server reactor model
(`src/math_model.c`, `src/math_model.h` alias `opcuaSettings.c`,
`src/init.c`, `src/types.h`, `src/main.c`).

Shallow embedding conventions:

* A C `double` is modelled by the type `D`: an exact rational for finite
  values plus the IEEE special values `+inf`, `-inf` and `nan`.  Arithmetic
  on finite values is exact rational arithmetic (an idealization of binary
  rounding); the propagation rules for the special values follow IEEE 754
  (`inf - inf = nan`, `0 * inf = nan`, comparisons with `nan` are false,
  `x == 0.0` is floating equality, `isfinite` rejects `inf` and `nan`).
* The C library function `exp` is kept abstract: every definition that
  needs it takes an argument `E : ℚ → ℚ` giving the value of `exp` on
  finite arguments; on special values the C behaviour
  (`exp nan = nan`, `exp inf = inf`, `exp (-inf) = 0`) is fixed.
  All theorems hold for every such `E`.
* Structs (`Sensor`, `ValveHandleControl`, `Reactor`, `ConfigMathModel`,
  `ModelCtx`) become Lean structures; the `ModelCtx` pointer graph is
  flattened into a state record `ModelState` holding the pointed-to
  objects, matching the wiring performed by `main.c` / `model_init`
  (all pointers reference distinct global objects).
* The open62541 server is an external collaborator: its primitives
  (browse-name resolution, child lookup, node-context and data-source
  installation) are modelled as oracle parameters, and the write
  handlers return the status code, the updated cell, and the emitted
  audit line (or `none`) explicitly.
-/

set_option autoImplicit false

namespace OpcScada

/-- Idealized IEEE double: exact rational finite values plus the three
special values. -/
inductive D where
  | fin (x : ℚ)
  | pinf
  | ninf
  | nan
deriving DecidableEq

/-- C `isfinite`. -/
def isfinite : D → Bool
  | .fin _ => true
  | _ => false

/-- IEEE addition on `D` (exact on finite values). -/
def dadd : D → D → D
  | .nan, _ => .nan
  | _, .nan => .nan
  | .fin x, .fin y => .fin (x + y)
  | .fin _, .pinf => .pinf
  | .fin _, .ninf => .ninf
  | .pinf, .fin _ => .pinf
  | .ninf, .fin _ => .ninf
  | .pinf, .pinf => .pinf
  | .ninf, .ninf => .ninf
  | .pinf, .ninf => .nan
  | .ninf, .pinf => .nan

/-- IEEE negation on `D`. -/
def dneg : D → D
  | .fin x => .fin (-x)
  | .pinf => .ninf
  | .ninf => .pinf
  | .nan => .nan

/-- IEEE subtraction on `D`. -/
def dsub (a b : D) : D := dadd a (dneg b)

/-- IEEE multiplication on `D` (exact on finite values, `0 * inf = nan`). -/
def dmul : D → D → D
  | .nan, _ => .nan
  | _, .nan => .nan
  | .fin x, .fin y => .fin (x * y)
  | .fin x, .pinf => if 0 < x then .pinf else if x < 0 then .ninf else .nan
  | .fin x, .ninf => if 0 < x then .ninf else if x < 0 then .pinf else .nan
  | .pinf, .fin y => if 0 < y then .pinf else if y < 0 then .ninf else .nan
  | .ninf, .fin y => if 0 < y then .ninf else if y < 0 then .pinf else .nan
  | .pinf, .pinf => .pinf
  | .pinf, .ninf => .ninf
  | .ninf, .pinf => .ninf
  | .ninf, .ninf => .pinf

/-- IEEE division on `D` (exact on finite values; division by zero gives a
signed infinity, `0/0` and `inf/inf` give `nan`; the sign of zero is not
modelled). -/
def ddiv : D → D → D
  | .nan, _ => .nan
  | _, .nan => .nan
  | .fin x, .fin y =>
      if y = 0 then (if x = 0 then .nan else if 0 < x then .pinf else .ninf)
      else .fin (x / y)
  | .fin _, .pinf => .fin 0
  | .fin _, .ninf => .fin 0
  | .pinf, .fin y => if 0 ≤ y then .pinf else .ninf
  | .ninf, .fin y => if 0 ≤ y then .ninf else .pinf
  | .pinf, .pinf => .nan
  | .pinf, .ninf => .nan
  | .ninf, .pinf => .nan
  | .ninf, .ninf => .nan

/-- IEEE `<=` (false whenever an operand is `nan`). -/
def dle : D → D → Bool
  | .nan, _ => false
  | _, .nan => false
  | .fin x, .fin y => x ≤ y
  | .fin _, .pinf => true
  | .fin _, .ninf => false
  | .pinf, .fin _ => false
  | .ninf, .fin _ => true
  | .pinf, .pinf => true
  | .ninf, .ninf => true
  | .ninf, .pinf => true
  | .pinf, .ninf => false

/-- IEEE `>=` (false whenever an operand is `nan`). -/
def dge (a b : D) : Bool := dle b a

/-- IEEE `==` (false whenever an operand is `nan`). -/
def deq : D → D → Bool
  | .nan, _ => false
  | _, .nan => false
  | .fin x, .fin y => x = y
  | .pinf, .pinf => true
  | .ninf, .ninf => true
  | _, _ => false

/-- C `exp` on `D`, with the finite behaviour given by the oracle `E`. -/
def dexp (E : ℚ → ℚ) : D → D
  | .fin x => .fin (E x)
  | .pinf => .pinf
  | .ninf => .fin 0
  | .nan => .nan

/-- `UA_NodeId`, reduced to the fields the program inspects
(`namespaceIndex`, `identifierType`, numeric `identifier`). -/
structure NodeId where
  namespaceIndex : ℕ
  identifierType : ℕ
  identifier : ℕ
deriving DecidableEq

/-- `UA_NODEID_TYPE_NUMERIC` (value 0 in open62541). -/
def UA_NODEIDTYPE_NUMERIC : ℕ := 0

/-- `UA_NODEID_NULL`: the all-zero numeric node id. -/
def UA_NODEID_NULL : NodeId := ⟨0, 0, 0⟩

/-- `Sensor` from `types.h`. -/
structure Sensor where
  pv : D
  objId : NodeId
deriving DecidableEq

/-- `ValveHandleControl` from `types.h`. -/
structure ValveHandleControl where
  manualoutput : D
  objId : NodeId
deriving DecidableEq

/-- `Reactor` from `types.h`. -/
structure Reactor where
  objId : NodeId
  volume : D
deriving DecidableEq

/-- `ConfigMathModel` from `types.h`. -/
structure ConfigMathModel where
  k01 : D
  EA1 : D
  k02 : D
  EA2 : D
  R : D
deriving DecidableEq

/-- `ModelCtx` from `types.h`, with the pointer graph flattened: the state
holds the pointed-to objects themselves (in the program all context
pointers reference distinct global objects, wired once by `model_init`). -/
structure ModelState where
  reactor : Reactor
  substanceId : ℕ
  cfg : ConfigMathModel
  sensorT : Sensor
  sensorF : Sensor
  sensorConcentrationA : Sensor
  sensorConcentrationB : Sensor
  valveRegulationConcentrationA : ValveHandleControl
  valveRegulationQ : ValveHandleControl
  valveRegulationT : ValveHandleControl
deriving DecidableEq

/-! Valve characteristic curves, from `math_model.c`. -/

/-- `valve_characteristic` (flow curve) from `math_model.c`. -/
def valve_characteristic (u : D) : D :=
  if dle u (D.fin 0) then D.fin 0
  else if dge u (D.fin 100) then D.fin 160
  else if dle u (D.fin 70) then
    let x := ddiv u (D.fin 70)
    dmul (dmul (D.fin 144) x) x
  else
    let x := ddiv (dsub u (D.fin 70)) (D.fin 30)
    dadd (D.fin 144) (dmul (D.fin 16) x)

/-- `valve_characteristicCA` (inlet-concentration curve) from `math_model.c`. -/
def valve_characteristicCA (u : D) : D :=
  if dle u (D.fin 0) then D.fin 0
  else if dge u (D.fin 100) then D.fin (9/10)
  else if dle u (D.fin 70) then
    let x := ddiv u (D.fin 70)
    dmul (dmul (D.fin (7/10)) x) x
  else
    let x := ddiv (dsub u (D.fin 70)) (D.fin 30)
    dadd (D.fin (7/10)) (dmul (D.fin (1/5)) x)

/-- `valve_characteristicT` (temperature-offset curve) from `math_model.c`. -/
def valve_characteristicT (u : D) : D :=
  if dle u (D.fin 0) then D.fin (-8)
  else if dge u (D.fin 100) then D.fin 16
  else if dle u (D.fin 70) then
    let x := ddiv u (D.fin 70)
    dadd (D.fin (-8)) (dmul (dmul (D.fin 20) x) x)
  else
    let x := ddiv (dsub u (D.fin 70)) (D.fin 30)
    dadd (D.fin 12) (dmul (D.fin 4) x)

/-! The kinetics computation `compute_CB` from `math_model.c`.  The local
constants of the C function are factored into named definitions so the
tick-level theorems can refer to them. -/

/-- The constant `T_K = sensorTemperature.pv + 273.15` of `compute_CB`. -/
def cb_T_K (sensorTemperature : Sensor) : D :=
  dadd sensorTemperature.pv (D.fin (5463/20))

/-- The constant `Q = sensorQ.pv * 1e-3 / 60.0` of `compute_CB`. -/
def cb_Q (sensorQ : Sensor) : D :=
  ddiv (dmul sensorQ.pv (D.fin (1/1000))) (D.fin 60)

/-- The constant `Vr = reactor.volume * 1e-3` of `compute_CB`. -/
def cb_Vr (reactor : Reactor) : D :=
  dmul reactor.volume (D.fin (1/1000))

/-- The constant `k1 = (k01 / 60.0) * exp(-EA1 / (R * T_K))` of `compute_CB`. -/
def cb_k1 (E : ℚ → ℚ) (config : ConfigMathModel) (T_K : D) : D :=
  dmul (ddiv config.k01 (D.fin 60)) (dexp E (ddiv (dneg config.EA1) (dmul config.R T_K)))

/-- The constant `k2 = (k02 / 60.0) * exp(-EA2 / (R * T_K))` of `compute_CB`. -/
def cb_k2 (E : ℚ → ℚ) (config : ConfigMathModel) (T_K : D) : D :=
  dmul (ddiv config.k02 (D.fin 60)) (dexp E (ddiv (dneg config.EA2) (dmul config.R T_K)))

/-- The denominator term `a = Vr * k1 + Q` of `compute_CB`. -/
def cb_a (E : ℚ → ℚ) (reactor : Reactor) (config : ConfigMathModel)
    (sensorQ : Sensor) (T_K : D) : D :=
  dadd (dmul (cb_Vr reactor) (cb_k1 E config T_K)) (cb_Q sensorQ)

/-- The denominator term `b = Vr * k2 + Q` of `compute_CB`. -/
def cb_b (E : ℚ → ℚ) (reactor : Reactor) (config : ConfigMathModel)
    (sensorQ : Sensor) (T_K : D) : D :=
  dadd (dmul (cb_Vr reactor) (cb_k2 E config T_K)) (cb_Q sensorQ)

/-- The numerator `num = 2.0 * Vr * k1 * Q * CA` of `compute_CB`
(left-associated exactly as in the C source). -/
def cb_num (E : ℚ → ℚ) (reactor : Reactor) (config : ConfigMathModel)
    (sensorQ : Sensor) (sensorConcentrationA : Sensor) (T_K : D) : D :=
  dmul (dmul (dmul (dmul (D.fin 2) (cb_Vr reactor)) (cb_k1 E config T_K))
    (cb_Q sensorQ)) sensorConcentrationA.pv

/-- `compute_CB` from `math_model.c`: early `NAN` return for an invalid
absolute temperature, early `NAN` return for a zero denominator term (exact
floating equality), otherwise `num / (a * b)`. -/
def compute_CB (E : ℚ → ℚ) (reactor : Reactor) (sensorTemperature : Sensor)
    (config : ConfigMathModel) (sensorQ : Sensor) (sensorConcentrationA : Sensor) : D :=
  let T_K := cb_T_K sensorTemperature
  if !isfinite T_K || dle T_K (D.fin 0) then D.nan
  else
    let a := cb_a E reactor config sensorQ T_K
    let b := cb_b E reactor config sensorQ T_K
    if deq a (D.fin 0) || deq b (D.fin 0) then D.nan
    else ddiv (cb_num E reactor config sensorQ sensorConcentrationA T_K) (dmul a b)

/-! The periodic callback `model_cb` from `math_model.c`, split into the
sensor-update prefix (steps 1 to 3) and the conditional output write. -/

/-- Steps 1 to 3 of `model_cb`: derive the flow, inlet-concentration and
temperature sensor values from the actuator manual outputs, with the
exact-zero special case for the concentration actuator. -/
def tick_pre (m : ModelState) : ModelState :=
  { m with
    sensorF := { m.sensorF with
      pv := valve_characteristic m.valveRegulationQ.manualoutput },
    sensorConcentrationA := { m.sensorConcentrationA with
      pv := valve_characteristicCA m.valveRegulationConcentrationA.manualoutput },
    sensorT := { m.sensorT with
      pv := if deq m.valveRegulationConcentrationA.manualoutput (D.fin 0)
            then D.fin 0
            else valve_characteristicT m.valveRegulationT.manualoutput } }

/-- The value `y = compute_CB(...)` computed by `model_cb` after the sensor
updates of `tick_pre`. -/
def tick_y (E : ℚ → ℚ) (m : ModelState) : D :=
  compute_CB E (tick_pre m).reactor (tick_pre m).sensorT (tick_pre m).cfg
    (tick_pre m).sensorF (tick_pre m).sensorConcentrationA

/-- `model_cb` from `math_model.c`: one tick of the process model engine. -/
def model_cb (E : ℚ → ℚ) (m : ModelState) : ModelState :=
  let m3 := tick_pre m
  let y := tick_y E m
  if isfinite y && dge y (D.fin 0) then
    { m3 with sensorConcentrationB := { m3.sensorConcentrationB with pv := y } }
  else m3

/-- The kinetics computation exactly as the specification words it
(claim C3): one guard combining the invalid-temperature and
zero-denominator conditions, with `Q`, `Vr`, `k1`, `k2`, `a`, `b` given by
the formulas of the spec, and the result `2 * Vr * k1 * Q * CA / (a * b)`
otherwise.  To be compared with `compute_CB`, which is translated from the
source. -/
def compute_CB_claimed (E : ℚ → ℚ) (reactor : Reactor) (sensorTemperature : Sensor)
    (config : ConfigMathModel) (sensorQ : Sensor) (sensorConcentrationA : Sensor) : D :=
  let T_K := dadd sensorTemperature.pv (D.fin (5463/20))
  let Q := ddiv (dmul sensorQ.pv (D.fin (1/1000))) (D.fin 60)
  let Vr := dmul reactor.volume (D.fin (1/1000))
  let CA := sensorConcentrationA.pv
  let k1 := dmul (ddiv config.k01 (D.fin 60)) (dexp E (ddiv (dneg config.EA1) (dmul config.R T_K)))
  let k2 := dmul (ddiv config.k02 (D.fin 60)) (dexp E (ddiv (dneg config.EA2) (dmul config.R T_K)))
  let a := dadd (dmul Vr k1) Q
  let b := dadd (dmul Vr k2) Q
  if !isfinite T_K || dle T_K (D.fin 0) || deq a (D.fin 0) || deq b (D.fin 0) then D.nan
  else ddiv (dmul (dmul (dmul (dmul (D.fin 2) Vr) k1) Q) CA) (dmul a b)

/-! The Value Source Bridge from `opcuaSettings.c`: the write handlers
`writeDoubleDS` and `writeUInt32DS`.  `UA_StatusCode`, `UA_DataValue`,
`UA_Variant` and `UA_NumericRange` are modelled by the fields the handlers
inspect; the browse-name lookup `UA_Server_readBrowseName` is an oracle
`resolve` (none = non-good status); the `printf` audit line becomes an
explicit `Option AuditLine` component of the result. -/

/-- The status codes the program distinguishes, plus a catch-all for other
collaborator codes. -/
inductive StatusCode where
  | good
  | badInternalError
  | badInvalidArgument
  | badIndexRangeInvalid
  | badTypeMismatch
  | badOutOfRange
  | badNotFound
  | other (code : ℕ)
deriving DecidableEq

/-- The variant type tags compared against `UA_TYPES[UA_TYPES_DOUBLE]` and
`UA_TYPES[UA_TYPES_UINT32]`. -/
inductive VType where
  | tdouble
  | tuint32
  | tother
deriving DecidableEq

/-- The scalar payload behind `UA_Variant.data`. -/
inductive VPayload where
  | vdouble (x : D)
  | vuint32 (n : ℕ)
deriving DecidableEq

/-- Reading a payload as a C double (reinterpreting a non-double payload is
impossible for a well-formed variant whose type tag is double; it is
modelled as `nan`). -/
def asDouble : VPayload → D
  | .vdouble x => x
  | .vuint32 _ => D.nan

/-- Reading a payload as a C `UA_UInt32` (a non-uint32 payload is modelled
as 0; it cannot arise for a well-formed variant). -/
def asUInt32 : VPayload → ℕ
  | .vuint32 n => n
  | .vdouble _ => 0

/-- `UA_NumericRange`, reduced to the only field the handlers inspect. -/
structure NumericRange where
  dimensionsSize : ℕ
deriving DecidableEq

/-- `UA_Variant`, reduced to the fields the handlers inspect.  `vtype` is
the type-descriptor pointer (`none` = NULL), `vdata` the data pointer. -/
structure Variant where
  vtype : Option VType
  vdata : Option VPayload
  arrayLength : ℕ
  arrayDimensionsSize : ℕ
deriving DecidableEq

/-- `UA_DataValue`, reduced to the fields the write handlers inspect. -/
structure DataValue where
  hasValue : Bool
  value : Variant
deriving DecidableEq

/-- The C check `!data || !data->hasValue`, negated: whether a value is
present. -/
def dataHasValue : Option DataValue → Bool
  | none => false
  | some dv => dv.hasValue

/-- The C check `range && range->dimensionsSize > 0`. -/
def rangeRequested : Option NumericRange → Bool
  | none => false
  | some r => 0 < r.dimensionsSize

/-- The audit line printed by `writeDoubleDS` on success. -/
inductive AuditLine where
  | byName (name : String) (v : D)
  | byNumericId (ns i : ℕ) (v : D)
  | unknownNode (v : D)
deriving DecidableEq

/-- `writeDoubleDS` from `opcuaSettings.c`.  Returns the status code, the
cell content after the call, and the emitted audit line (`none` when
nothing is printed).  `resolve` models `UA_Server_readBrowseName`;
`server` models the non-nullness of the server pointer. -/
def writeDoubleDS (resolve : NodeId → Option String) (server : Bool)
    (nodeId : Option NodeId) (nodeContext : Option D)
    (range : Option NumericRange) (data : Option DataValue) :
    StatusCode × Option D × Option AuditLine :=
  match nodeContext with
  | none => (.badInternalError, none, none)
  | some cell =>
    match data with
    | none => (.badInvalidArgument, some cell, none)
    | some dv =>
      if !dv.hasValue then (.badInvalidArgument, some cell, none)
      else if rangeRequested range then (.badIndexRangeInvalid, some cell, none)
      else if dv.value.vtype ≠ some VType.tdouble ∨ dv.value.vdata = none ∨
          dv.value.arrayLength ≠ 0 ∨ dv.value.arrayDimensionsSize ≠ 0 then
        (.badTypeMismatch, some cell, none)
      else
        match dv.value.vdata with
        | none => (.badTypeMismatch, some cell, none)
        | some p =>
          let v := asDouble p
          if !isfinite v then (.badOutOfRange, some cell, none)
          else
            let log :=
              if server then
                match nodeId with
                | none => none
                | some nid =>
                  match resolve nid with
                  | some bn => some (AuditLine.byName bn v)
                  | none =>
                    if nid.identifierType = UA_NODEIDTYPE_NUMERIC then
                      some (AuditLine.byNumericId nid.namespaceIndex nid.identifier v)
                    else some (AuditLine.unknownNode v)
              else none
            (.good, some v, log)

/-- `writeUInt32DS` from `opcuaSettings.c`.  Same validation chain as
`writeDoubleDS` but for `UA_UInt32`, with no finiteness check and no
logging (the audit-line component is always `none`). -/
def writeUInt32DS (nodeContext : Option ℕ) (range : Option NumericRange)
    (data : Option DataValue) : StatusCode × Option ℕ × Option AuditLine :=
  match nodeContext with
  | none => (.badInternalError, none, none)
  | some cell =>
    match data with
    | none => (.badInvalidArgument, some cell, none)
    | some dv =>
      if !dv.hasValue then (.badInvalidArgument, some cell, none)
      else if rangeRequested range then (.badIndexRangeInvalid, some cell, none)
      else if dv.value.vtype ≠ some VType.tuint32 ∨ dv.value.vdata = none ∨
          dv.value.arrayLength ≠ 0 ∨ dv.value.arrayDimensionsSize ≠ 0 then
        (.badTypeMismatch, some cell, none)
      else
        match dv.value.vdata with
        | none => (.badTypeMismatch, some cell, none)
        | some p => (.good, some (asUInt32 p), none)

/-- The audit line the spec expects for a successful double write: the
browse name when it resolves, else the numeric node id, else an
unknown-node marker. -/
def expectedAudit (resolve : NodeId → Option String) (nid : NodeId) (v : D) : AuditLine :=
  match resolve nid with
  | some bn => .byName bn v
  | none =>
    if nid.identifierType = UA_NODEIDTYPE_NUMERIC then
      .byNumericId nid.namespaceIndex nid.identifier v
    else .unknownNode v

/-! Initialization from `init.c` and the startup sequence of `main.c`. -/

/-- `sensor_init` from `init.c`. -/
def sensor_init (_s : Sensor) : Sensor :=
  { objId := UA_NODEID_NULL, pv := D.fin 0 }

/-- `reactor_init` from `init.c` (default volume 100). -/
def reactor_init (_r : Reactor) : Reactor :=
  { objId := UA_NODEID_NULL, volume := D.fin 100 }

/-- `valve_handle_control_init` from `init.c`. -/
def valve_handle_control_init (_v : ValveHandleControl) : ValveHandleControl :=
  { objId := UA_NODEID_NULL, manualoutput := D.fin 0 }

/-- `model_init` from `init.c`, restricted to the value fields: the pointer
wiring is already flattened into `ModelState`; the kinetic defaults are
`R = 8.314` and zero for the rest, and the substance id is zero. -/
def model_init (m : ModelState) : ModelState :=
  { m with
    cfg := { k01 := D.fin 0, EA1 := D.fin 0, k02 := D.fin 0, EA2 := D.fin 0,
             R := D.fin (4157/500) }
    substanceId := 0 }

/-- The initialization sequence performed by `main.c` before any server
binding: `sensor_init` on the four sensors, `valve_handle_control_init` on
the three valves, `reactor_init`, then `model_init`. -/
def startup_state (m : ModelState) : ModelState :=
  model_init
    { m with
      sensorT := sensor_init m.sensorT
      sensorF := sensor_init m.sensorF
      sensorConcentrationA := sensor_init m.sensorConcentrationA
      sensorConcentrationB := sensor_init m.sensorConcentrationB
      valveRegulationQ := valve_handle_control_init m.valveRegulationQ
      valveRegulationT := valve_handle_control_init m.valveRegulationT
      valveRegulationConcentrationA := valve_handle_control_init m.valveRegulationConcentrationA
      reactor := reactor_init m.reactor }

/-! The instance binder from `opcuaSettings.c`.  The open62541 primitives
`find_child_var` (via `UA_Server_translateBrowsePathToNodeIds`),
`UA_Server_setNodeContext` and `UA_Server_setVariableNode_dataSource` are
collaborators; their outcomes per browse name are supplied by an oracle
`BindEnv`, and the visible server state is the set of browse names whose
node context and data source have been installed. -/

/-- Outcome oracle for the three collaborator calls inside an attach, per
browse name. -/
structure BindEnv where
  findRes : String → StatusCode
  ctxRes : String → StatusCode
  dsRes : String → StatusCode

/-- The binding-relevant server state: which fields have a data source
installed and which have a node context set. -/
structure ServerState where
  attached : List String
  ctxSet : List String
deriving DecidableEq

/-- `attach_child_double` from `opcuaSettings.c`: find the child, set the
node context, install the data source; on data-source failure the node
context of this field is reset to NULL (state restored); earlier state is
never touched. -/
def attach_child_double (env : BindEnv) (s : ServerState) (browseName : String) :
    StatusCode × ServerState :=
  if env.findRes browseName ≠ .good then (env.findRes browseName, s)
  else if env.ctxRes browseName ≠ .good then (env.ctxRes browseName, s)
  else if env.dsRes browseName ≠ .good then (env.dsRes browseName, s)
  else (.good, { attached := s.attached ++ [browseName],
                 ctxSet := s.ctxSet ++ [browseName] })

/-- `attach_child_UInt32` from `opcuaSettings.c`: identical structure to
`attach_child_double` with the UInt32 data source. -/
def attach_child_UInt32 (env : BindEnv) (s : ServerState) (browseName : String) :
    StatusCode × ServerState :=
  if env.findRes browseName ≠ .good then (env.findRes browseName, s)
  else if env.ctxRes browseName ≠ .good then (env.ctxRes browseName, s)
  else if env.dsRes browseName ≠ .good then (env.dsRes browseName, s)
  else (.good, { attached := s.attached ++ [browseName],
                 ctxSet := s.ctxSet ++ [browseName] })

/-- `opc_ua_create_math_model_instance` from `opcuaSettings.c`: after the
object-node creation (outcome `objRes`), attach `SUBSTANCE_ID`, `K01`,
`K02`, `EA1`, `EA2` in order, returning the first failure immediately. -/
def opc_ua_create_math_model_instance (env : BindEnv) (s : ServerState)
    (objRes : StatusCode) : StatusCode × ServerState :=
  if objRes ≠ .good then (objRes, s)
  else
    let r1 := attach_child_UInt32 env s "SUBSTANCE_ID"
    if r1.1 ≠ .good then r1 else
    let r2 := attach_child_double env r1.2 "K01"
    if r2.1 ≠ .good then r2 else
    let r3 := attach_child_double env r2.2 "K02"
    if r3.1 ≠ .good then r3 else
    let r4 := attach_child_double env r3.2 "EA1"
    if r4.1 ≠ .good then r4 else
    attach_child_double env r4.2 "EA2"

/-- The five browse names bound by `opc_ua_create_math_model_instance`, in
order. -/
def mmFields : Fin 5 → String :=
  !["SUBSTANCE_ID", "K01", "K02", "EA1", "EA2"]

/-- Whether all three collaborator calls for one field succeed. -/
def attachOk (env : BindEnv) (n : String) : Bool :=
  decide (env.findRes n = .good) && decide (env.ctxRes n = .good) &&
    decide (env.dsRes n = .good)

/-- The error an attach of field `n` returns: the first non-good outcome
among find, set-context, set-data-source. -/
def attachErr (env : BindEnv) (n : String) : StatusCode :=
  if env.findRes n ≠ .good then env.findRes n
  else if env.ctxRes n ≠ .good then env.ctxRes n
  else env.dsRes n

/-! Concrete instances used by witnesses and counterexamples. -/

/-- A concrete exponential oracle for witnesses. -/
def E0 : ℚ → ℚ := fun _ => 1

/-- A freshly initialized sensor value. -/
def zeroSensor : Sensor := { pv := D.fin 0, objId := UA_NODEID_NULL }

/-- A freshly initialized valve value. -/
def zeroValve : ValveHandleControl := { manualoutput := D.fin 0, objId := UA_NODEID_NULL }

def exBase : ModelState :=
  { reactor := { objId := UA_NODEID_NULL, volume := D.fin 100 }
    substanceId := 0
    cfg := { k01 := D.fin 0, EA1 := D.fin 0, k02 := D.fin 0, EA2 := D.fin 0,
             R := D.fin (4157/500) }
    sensorT := zeroSensor
    sensorF := zeroSensor
    sensorConcentrationA := zeroSensor
    sensorConcentrationB := { pv := D.fin 7, objId := UA_NODEID_NULL }
    valveRegulationConcentrationA := zeroValve
    valveRegulationQ := zeroValve
    valveRegulationT := zeroValve }

def exC6 : ModelState :=
  { exBase with
    cfg := { k01 := D.fin 60, EA1 := D.fin 0, k02 := D.fin 60, EA2 := D.fin 0,
             R := D.fin (4157/500) }
    sensorConcentrationB := { pv := D.fin 5, objId := UA_NODEID_NULL } }

def exStart : ModelState :=
  { reactor := { objId := ⟨2, 0, 9⟩, volume := D.fin 55 }
    substanceId := 42
    cfg := { k01 := D.fin 1, EA1 := D.fin 2, k02 := D.fin 3, EA2 := D.fin 4, R := D.fin 5 }
    sensorT := { pv := D.nan, objId := ⟨1, 0, 3⟩ }
    sensorF := { pv := D.fin 9, objId := ⟨1, 0, 4⟩ }
    sensorConcentrationA := { pv := D.fin 8, objId := ⟨1, 0, 5⟩ }
    sensorConcentrationB := { pv := D.fin 7, objId := ⟨1, 0, 6⟩ }
    valveRegulationConcentrationA := { manualoutput := D.fin 3, objId := ⟨1, 0, 7⟩ }
    valveRegulationQ := { manualoutput := D.fin 2, objId := ⟨1, 0, 8⟩ }
    valveRegulationT := { manualoutput := D.fin 1, objId := ⟨1, 0, 9⟩ } }

/-- A browse-name oracle that never resolves. -/
def resolveNone : NodeId → Option String := fun _ => none

/-- A numeric node id in namespace 1 with identifier 42. -/
def nidEx : NodeId := ⟨1, 0, 42⟩

/-- A well-formed scalar double data value carrying `nan`. -/
def dvNan : DataValue :=
  { hasValue := true
    value := { vtype := some VType.tdouble, vdata := some (VPayload.vdouble D.nan),
               arrayLength := 0, arrayDimensionsSize := 0 } }

/-- A well-formed scalar double data value carrying 5. -/
def dvD5 : DataValue :=
  { hasValue := true
    value := { vtype := some VType.tdouble, vdata := some (VPayload.vdouble (D.fin 5)),
               arrayLength := 0, arrayDimensionsSize := 0 } }

/-- A well-formed scalar uint32 data value carrying 7. -/
def dvU7 : DataValue :=
  { hasValue := true
    value := { vtype := some VType.tuint32, vdata := some (VPayload.vuint32 7),
               arrayLength := 0, arrayDimensionsSize := 0 } }

/-- The five browse names as a list, in binding order. -/
def mmNames : List String := ["SUBSTANCE_ID", "K01", "K02", "EA1", "EA2"]

def envC8 : BindEnv :=
  { findRes := fun _ => .good
    ctxRes := fun _ => .good
    dsRes := fun n => if n = "K02" then .badInternalError else .good }

/-- A server state with one previously attached field. -/
def exServer : ServerState :=
  { attached := ["REACTOR_VOLUME"], ctxSet := ["REACTOR_VOLUME"] }

/-! Helper lemmas shared by the claim theorems. -/

lemma model_cb_sensorF_pv (E : ℚ → ℚ) (m : ModelState) :
    (model_cb E m).sensorF.pv = (tick_pre m).sensorF.pv := by
  by_cases hc : (isfinite (tick_y E m) && dge (tick_y E m) (D.fin 0)) = true
  · simp [model_cb, hc]
  · rw [Bool.not_eq_true] at hc
    simp [model_cb, hc]

lemma model_cb_sensorCA_pv (E : ℚ → ℚ) (m : ModelState) :
    (model_cb E m).sensorConcentrationA.pv = (tick_pre m).sensorConcentrationA.pv := by
  by_cases hc : (isfinite (tick_y E m) && dge (tick_y E m) (D.fin 0)) = true
  · simp [model_cb, hc]
  · rw [Bool.not_eq_true] at hc
    simp [model_cb, hc]

lemma model_cb_sensorT_pv (E : ℚ → ℚ) (m : ModelState) :
    (model_cb E m).sensorT.pv = (tick_pre m).sensorT.pv := by
  by_cases hc : (isfinite (tick_y E m) && dge (tick_y E m) (D.fin 0)) = true
  · simp [model_cb, hc]
  · rw [Bool.not_eq_true] at hc
    simp [model_cb, hc]

lemma model_cb_sensorB_keep (E : ℚ → ℚ) (m : ModelState)
    (h : (isfinite (tick_y E m) && dge (tick_y E m) (D.fin 0)) = false) :
    (model_cb E m).sensorConcentrationB.pv = m.sensorConcentrationB.pv := by
  simp [model_cb, h, tick_pre]

lemma attach_child_double_ok (env : BindEnv) (s : ServerState) (n : String)
    (h : attachOk env n = true) :
    attach_child_double env s n =
      (.good, { attached := s.attached ++ [n], ctxSet := s.ctxSet ++ [n] }) := by
  simp only [attachOk, Bool.and_eq_true, decide_eq_true_eq] at h
  simp [attach_child_double, h.1.1, h.1.2, h.2]

lemma attach_child_UInt32_ok (env : BindEnv) (s : ServerState) (n : String)
    (h : attachOk env n = true) :
    attach_child_UInt32 env s n =
      (.good, { attached := s.attached ++ [n], ctxSet := s.ctxSet ++ [n] }) := by
  simp only [attachOk, Bool.and_eq_true, decide_eq_true_eq] at h
  simp [attach_child_UInt32, h.1.1, h.1.2, h.2]

lemma attach_child_double_fail (env : BindEnv) (s : ServerState) (n : String)
    (h : attachOk env n = false) :
    attach_child_double env s n = (attachErr env n, s) ∧ attachErr env n ≠ .good := by
  by_cases h1 : env.findRes n = .good <;> by_cases h2 : env.ctxRes n = .good <;>
    by_cases h3 : env.dsRes n = .good <;>
      simp [attachOk, h1, h2, h3] at h ⊢ <;>
      simp [attach_child_double, attachErr, h1, h2, h3]

lemma attach_child_UInt32_fail (env : BindEnv) (s : ServerState) (n : String)
    (h : attachOk env n = false) :
    attach_child_UInt32 env s n = (attachErr env n, s) ∧ attachErr env n ≠ .good := by
  by_cases h1 : env.findRes n = .good <;> by_cases h2 : env.ctxRes n = .good <;>
    by_cases h3 : env.dsRes n = .good <;>
      simp [attachOk, h1, h2, h3] at h ⊢ <;>
      simp [attach_child_UInt32, attachErr, h1, h2, h3]

/-! The claim theorems. -/

/-- Claim C1: in every tick of `model_cb` the output-concentration sensor
cell is overwritten with the kinetics result exactly when that result is
finite and non-negative; when the result is non-finite or negative the cell
keeps its pre-tick value. -/
theorem C1_output_write_freshness (E : ℚ → ℚ) (m : ModelState) :
    ((isfinite (tick_y E m) && dge (tick_y E m) (D.fin 0)) = true →
      (model_cb E m).sensorConcentrationB.pv = tick_y E m) ∧
    ((isfinite (tick_y E m) && dge (tick_y E m) (D.fin 0)) = false →
      (model_cb E m).sensorConcentrationB.pv = m.sensorConcentrationB.pv) := by
  unfold model_cb
  constructor <;> intro h <;> simp [h, tick_pre]

/-- Claim C1 witness: in the default state the kinetics result is `nan`
and the prior output reading 7 survives the tick. -/
theorem C1_output_write_freshness_witness :
    (isfinite (tick_y E0 exBase) && dge (tick_y E0 exBase) (D.fin 0)) = false ∧
    (model_cb E0 exBase).sensorConcentrationB.pv = exBase.sensorConcentrationB.pv := by
  have h : (isfinite (tick_y E0 exBase) && dge (tick_y E0 exBase) (D.fin 0)) = false := by
    norm_num [tick_y, tick_pre, compute_CB, cb_T_K, cb_a, cb_b, cb_Vr, cb_k1, cb_k2,
      cb_Q, valve_characteristic, valve_characteristicCA, exBase, zeroSensor, zeroValve,
      E0, dadd, dmul, ddiv, dneg, dle, dge, deq, dexp, isfinite]
  exact ⟨h, (C1_output_write_freshness E0 exBase).2 h⟩

/-- Claim C2: `writeDoubleDS` runs its checks in the order cell-bound,
value-present, no-range, scalar-double-type, finite-payload; each failure
returns its distinct status code and leaves the cell unchanged; on success
the cell holds exactly the written value; the five failure codes are
pairwise distinct. -/
theorem C2_writeDoubleDS_validation (resolve : NodeId → Option String) (server : Bool)
    (nodeId : Option NodeId) (ctx : Option D) (range : Option NumericRange)
    (data : Option DataValue) :
    (ctx = none →
      writeDoubleDS resolve server nodeId ctx range data =
        (.badInternalError, none, none)) ∧
    (ctx ≠ none → dataHasValue data = false →
      writeDoubleDS resolve server nodeId ctx range data =
        (.badInvalidArgument, ctx, none)) ∧
    (ctx ≠ none → dataHasValue data = true → rangeRequested range = true →
      writeDoubleDS resolve server nodeId ctx range data =
        (.badIndexRangeInvalid, ctx, none)) ∧
    (∀ dv : DataValue, ctx ≠ none → data = some dv → dv.hasValue = true →
      rangeRequested range = false →
      (dv.value.vtype ≠ some VType.tdouble ∨ dv.value.vdata = none ∨
        dv.value.arrayLength ≠ 0 ∨ dv.value.arrayDimensionsSize ≠ 0) →
      writeDoubleDS resolve server nodeId ctx range data =
        (.badTypeMismatch, ctx, none)) ∧
    (∀ (dv : DataValue) (x : D), ctx ≠ none → data = some dv → dv.hasValue = true →
      rangeRequested range = false →
      dv.value.vtype = some VType.tdouble → dv.value.vdata = some (VPayload.vdouble x) →
      dv.value.arrayLength = 0 → dv.value.arrayDimensionsSize = 0 → isfinite x = false →
      writeDoubleDS resolve server nodeId ctx range data =
        (.badOutOfRange, ctx, none)) ∧
    (∀ (dv : DataValue) (x : D), ctx ≠ none → data = some dv → dv.hasValue = true →
      rangeRequested range = false →
      dv.value.vtype = some VType.tdouble → dv.value.vdata = some (VPayload.vdouble x) →
      dv.value.arrayLength = 0 → dv.value.arrayDimensionsSize = 0 → isfinite x = true →
      (writeDoubleDS resolve server nodeId ctx range data).1 = .good ∧
      (writeDoubleDS resolve server nodeId ctx range data).2.1 = some x) ∧
    List.Pairwise Ne [StatusCode.badInternalError, StatusCode.badInvalidArgument,
      StatusCode.badIndexRangeInvalid, StatusCode.badTypeMismatch,
      StatusCode.badOutOfRange] := by
  refine ⟨?_, ?_, ?_, ?_, ?_, ?_, by decide⟩
  · intro h
    subst h
    rfl
  · rcases ctx with _ | c
    · intro hc _
      exact absurd rfl hc
    · intro _ hd
      rcases data with _ | dv
      · rfl
      · simp only [dataHasValue] at hd
        simp [writeDoubleDS, hd]
  · rcases ctx with _ | c
    · intro hc _ _
      exact absurd rfl hc
    · intro _ hd hr
      rcases data with _ | dv
      · simp [dataHasValue] at hd
      · simp only [dataHasValue] at hd
        simp [writeDoubleDS, hd, hr]
  · intro dv _ hdata hval hr htype
    rcases ctx with _ | c
    · simp at *
    · subst hdata
      simp [writeDoubleDS, hval, hr, htype]
  · intro dv x _ hdata hval hr htype hp hlen hdims hfin
    rcases ctx with _ | c
    · simp at *
    · subst hdata
      simp [writeDoubleDS, hval, hr, htype, hp, hlen, hdims, asDouble, hfin]
  · intro dv x _ hdata hval hr htype hp hlen hdims hfin
    rcases ctx with _ | c
    · simp at *
    · subst hdata
      simp [writeDoubleDS, hval, hr, htype, hp, hlen, hdims, asDouble, hfin]

/-- Claim C2 witness: a write of `nan` to a bound double cell is rejected
with the out-of-range code and the stored 3 is unchanged. -/
theorem C2_writeDoubleDS_validation_witness :
    writeDoubleDS resolveNone true (some nidEx) (some (D.fin 3)) none (some dvNan) =
      (.badOutOfRange, some (D.fin 3), none) :=
  (C2_writeDoubleDS_validation resolveNone true (some nidEx) (some (D.fin 3)) none
      (some dvNan)).2.2.2.2.1 dvNan D.nan (by simp) rfl rfl rfl rfl rfl rfl rfl rfl

/-- Claim C3: `compute_CB` equals the specified case analysis: `nan`
exactly when `T_K = sensor_T + 273.15` is non-finite or at most 0, or a
denominator term `a` or `b` equals 0 by exact floating equality, and
`2 * Vr * k1 * Q * CA / (a * b)` otherwise; the undefined case is only the
returned value, never a hard failure (the function is total). -/
theorem C3_compute_CB_undefined_cases (E : ℚ → ℚ) (reactor : Reactor) (sT : Sensor)
    (cfg : ConfigMathModel) (sQ : Sensor) (sCA : Sensor) :
    compute_CB E reactor sT cfg sQ sCA = compute_CB_claimed E reactor sT cfg sQ sCA := by
  unfold compute_CB compute_CB_claimed cb_T_K cb_a cb_b cb_num cb_Vr cb_k1 cb_k2 cb_Q
  cases hf : isfinite (dadd sT.pv (D.fin (5463/20))) <;>
    cases hl : dle (dadd sT.pv (D.fin (5463/20))) (D.fin 0) <;>
      simp [hf, hl]

/-- Claim C4: each response curve returns its floor for inputs at most 0
and its ceiling for inputs at least 100, is the stated quadratic on
(0, 70] and the stated linear ramp on (70, 100), and the two pieces agree
at 70. -/
theorem C4_response_curves (q : ℚ) :
    (q ≤ 0 →
      valve_characteristic (D.fin q) = D.fin 0 ∧
      valve_characteristicCA (D.fin q) = D.fin 0 ∧
      valve_characteristicT (D.fin q) = D.fin (-8)) ∧
    (100 ≤ q →
      valve_characteristic (D.fin q) = D.fin 160 ∧
      valve_characteristicCA (D.fin q) = D.fin (9/10) ∧
      valve_characteristicT (D.fin q) = D.fin 16) ∧
    (0 < q → q ≤ 70 →
      valve_characteristic (D.fin q) = D.fin (144 * (q/70)^2) ∧
      valve_characteristicCA (D.fin q) = D.fin ((7/10) * (q/70)^2) ∧
      valve_characteristicT (D.fin q) = D.fin (-8 + 20 * (q/70)^2)) ∧
    (70 < q → q < 100 →
      valve_characteristic (D.fin q) = D.fin (144 + (160 - 144) * ((q - 70)/30)) ∧
      valve_characteristicCA (D.fin q) = D.fin (7/10 + (9/10 - 7/10) * ((q - 70)/30)) ∧
      valve_characteristicT (D.fin q) = D.fin (12 + (16 - 12) * ((q - 70)/30))) ∧
    (144 * ((70:ℚ)/70)^2 = 144 + (160 - 144) * (((70:ℚ) - 70)/30) ∧
      (7/10) * ((70:ℚ)/70)^2 = 7/10 + (9/10 - 7/10) * (((70:ℚ) - 70)/30) ∧
      -8 + 20 * ((70:ℚ)/70)^2 = 12 + (16 - 12) * (((70:ℚ) - 70)/30)) := by
  refine ⟨?_, ?_, ?_, ?_, by norm_num, by norm_num, by norm_num⟩
  · intro h
    refine ⟨?_, ?_, ?_⟩ <;>
      simp [valve_characteristic, valve_characteristicCA, valve_characteristicT, dle, h]
  · intro h
    have h0 : ¬ q ≤ 0 := by linarith
    refine ⟨?_, ?_, ?_⟩ <;>
      simp [valve_characteristic, valve_characteristicCA, valve_characteristicT,
        dle, dge, h, h0]
  · intro h0 h70
    have h1 : ¬ q ≤ 0 := not_le.mpr h0
    have h2 : ¬ 100 ≤ q := by linarith
    refine ⟨?_, ?_, ?_⟩ <;>
      · norm_num [valve_characteristic, valve_characteristicCA, valve_characteristicT,
          dle, dge, ddiv, dmul, dadd, h1, h2, h70]
        ring
  · intro h70 h100
    have h1 : ¬ q ≤ 0 := by linarith
    have h2 : ¬ 100 ≤ q := not_le.mpr h100
    have h3 : ¬ q ≤ 70 := not_le.mpr h70
    refine ⟨?_, ?_, ?_⟩ <;>
      · norm_num [valve_characteristic, valve_characteristicCA, valve_characteristicT,
          dle, dge, ddiv, dmul, dadd, dsub, dneg, h1, h2, h3]
        ring

/-- Claim C4 witness: the three curves at input 50 take their quadratic
values. -/
theorem C4_response_curves_witness :
    valve_characteristic (D.fin 50) = D.fin (144 * ((50:ℚ)/70)^2) ∧
    valve_characteristicCA (D.fin 50) = D.fin ((7/10) * ((50:ℚ)/70)^2) ∧
    valve_characteristicT (D.fin 50) = D.fin (-8 + 20 * ((50:ℚ)/70)^2) :=
  (C4_response_curves 50).2.2.1 (by norm_num) (by norm_num)

/-- Claim C5: when the concentration actuator output is exactly 0.0 the
tick forces the temperature sensor to the zero baseline, otherwise the
temperature sensor gets the temperature curve of the temperature actuator
output. -/
theorem C5_temperature_baseline_override (E : ℚ → ℚ) (m : ModelState) :
    (deq m.valveRegulationConcentrationA.manualoutput (D.fin 0) = true →
      (model_cb E m).sensorT.pv = D.fin 0) ∧
    (deq m.valveRegulationConcentrationA.manualoutput (D.fin 0) = false →
      (model_cb E m).sensorT.pv =
        valve_characteristicT m.valveRegulationT.manualoutput) := by
  by_cases hc : (isfinite (tick_y E m) && dge (tick_y E m) (D.fin 0)) = true
  · constructor <;> intro h <;> simp [model_cb, tick_pre, hc, h]
  · rw [Bool.not_eq_true] at hc
    constructor <;> intro h <;> simp [model_cb, tick_pre, hc, h]

/-- Claim C5 witness: in the default state the concentration actuator is
0 and the temperature sensor is forced to 0. -/
theorem C5_temperature_baseline_override_witness :
    deq exBase.valveRegulationConcentrationA.manualoutput (D.fin 0) = true ∧
    (model_cb E0 exBase).sensorT.pv = D.fin 0 := by
  have h : deq exBase.valveRegulationConcentrationA.manualoutput (D.fin 0) = true := by
    norm_num [exBase, zeroValve, deq]
  exact ⟨h, (C5_temperature_baseline_override E0 exBase).1 h⟩

/-- Claim C6 counterexample: with both actuators at 0 the temperature
sensor is forced to 0, not the curve floor -8; and with nonzero rate
factors the kinetics result is 0 (finite, non-negative), so the output
sensor is overwritten with 0 rather than retaining its prior value 5. -/
theorem C6_zero_actuators_counterexample :
    exC6.valveRegulationQ.manualoutput = D.fin 0 ∧
    exC6.valveRegulationConcentrationA.manualoutput = D.fin 0 ∧
    (model_cb E0 exC6).sensorT.pv ≠ D.fin (-8) ∧
    (model_cb E0 exC6).sensorConcentrationB.pv ≠ exC6.sensorConcentrationB.pv := by
  refine ⟨rfl, rfl, ?_, ?_⟩ <;>
    norm_num [model_cb, tick_y, tick_pre, compute_CB, cb_T_K, cb_a, cb_b, cb_Vr,
      cb_k1, cb_k2, cb_Q, cb_num, valve_characteristic, valve_characteristicCA,
      exC6, exBase, zeroSensor, zeroValve, E0, dadd, dmul, ddiv, dneg, dle, dge,
      deq, dexp, isfinite]

/-- Claim C6 amended: with the flow and concentration actuators at 0 the
tick yields flow sensor 0, inlet-concentration sensor 0, and temperature
sensor 0 (the forced baseline); the flow term `Q` is 0; and whenever a
denominator term `a` or `b` is 0 by exact floating equality (as with the
default configuration `k01 = k02 = 0`) the kinetics result is `nan` and the
output sensor retains its prior value. -/
theorem C6_amended_zero_actuators (E : ℚ → ℚ) (m : ModelState)
    (hQ : m.valveRegulationQ.manualoutput = D.fin 0)
    (hCA : m.valveRegulationConcentrationA.manualoutput = D.fin 0) :
    (model_cb E m).sensorF.pv = D.fin 0 ∧
    (model_cb E m).sensorConcentrationA.pv = D.fin 0 ∧
    (model_cb E m).sensorT.pv = D.fin 0 ∧
    cb_Q (tick_pre m).sensorF = D.fin 0 ∧
    ((deq (cb_a E (tick_pre m).reactor (tick_pre m).cfg (tick_pre m).sensorF
          (cb_T_K (tick_pre m).sensorT)) (D.fin 0) ||
      deq (cb_b E (tick_pre m).reactor (tick_pre m).cfg (tick_pre m).sensorF
          (cb_T_K (tick_pre m).sensorT)) (D.fin 0)) = true →
      tick_y E m = D.nan ∧
      (model_cb E m).sensorConcentrationB.pv = m.sensorConcentrationB.pv) := by
  have hF : (tick_pre m).sensorF.pv = D.fin 0 := by
    simp [tick_pre, hQ, valve_characteristic, dle]
  have hCA2 : (tick_pre m).sensorConcentrationA.pv = D.fin 0 := by
    simp [tick_pre, hCA, valve_characteristicCA, dle]
  have hT : (tick_pre m).sensorT.pv = D.fin 0 := by
    simp [tick_pre, hCA, deq]
  have hTK : cb_T_K (tick_pre m).sensorT = D.fin (5463/20) := by
    norm_num [cb_T_K, hT, dadd]
  have hQ0 : cb_Q (tick_pre m).sensorF = D.fin 0 := by
    norm_num [cb_Q, hF, dmul, ddiv]
  refine ⟨?_, ?_, ?_, hQ0, ?_⟩
  · rw [model_cb_sensorF_pv, hF]
  · rw [model_cb_sensorCA_pv, hCA2]
  · rw [model_cb_sensorT_pv, hT]
  · intro h
    have hy : tick_y E m = D.nan := by
      rw [tick_y, compute_CB]
      rw [hTK] at h ⊢
      norm_num [isfinite, dle, h]
    exact ⟨hy, model_cb_sensorB_keep E m (by simp [hy, isfinite])⟩

/-- Claim C6 amended witness: in the default state the denominator term
is 0, the result is `nan` and the prior output reading is retained. -/
theorem C6_amended_zero_actuators_witness :
    tick_y E0 exBase = D.nan ∧
    (model_cb E0 exBase).sensorF.pv = D.fin 0 ∧
    (model_cb E0 exBase).sensorT.pv = D.fin 0 ∧
    (model_cb E0 exBase).sensorConcentrationB.pv = exBase.sensorConcentrationB.pv := by
  have h := C6_amended_zero_actuators E0 exBase rfl rfl
  have hcond : (deq (cb_a E0 (tick_pre exBase).reactor (tick_pre exBase).cfg
      (tick_pre exBase).sensorF (cb_T_K (tick_pre exBase).sensorT)) (D.fin 0) ||
      deq (cb_b E0 (tick_pre exBase).reactor (tick_pre exBase).cfg
      (tick_pre exBase).sensorF (cb_T_K (tick_pre exBase).sensorT)) (D.fin 0)) = true := by
    norm_num [cb_a, cb_b, cb_T_K, cb_Vr, cb_k1, cb_k2, cb_Q, tick_pre,
      valve_characteristic, valve_characteristicCA, exBase, zeroSensor, zeroValve,
      E0, dadd, dmul, ddiv, dneg, dle, deq, dexp]
  exact ⟨(h.2.2.2.2 hcond).1, h.1, h.2.2.1, (h.2.2.2.2 hcond).2⟩

/-- Claim C7 counterexample: after the startup initialization the reactor
volume is the default 100 and the gas constant is the default 8.314, not
zero as the claim states. -/
theorem C7_startup_counterexample :
    (startup_state exStart).reactor.volume ≠ D.fin 0 ∧
    (startup_state exStart).cfg.R ≠ D.fin 0 := by
  norm_num [startup_state, model_init, reactor_init, sensor_init,
    valve_handle_control_init, exStart]

/-- Claim C7 amended: after `sensor_init`, `valve_handle_control_init`,
`reactor_init` and `model_init` every sensor process value, every actuator
manual output, the substance identifier and the parameters `k01`, `k02`,
`EA1`, `EA2` are zero, every entity NodeId is the null NodeId, and the
defaults `volume = 100` and `R = 8.314` are set. -/
theorem C7_amended_startup_values (m : ModelState) :
    (startup_state m).sensorT.pv = D.fin 0 ∧
    (startup_state m).sensorF.pv = D.fin 0 ∧
    (startup_state m).sensorConcentrationA.pv = D.fin 0 ∧
    (startup_state m).sensorConcentrationB.pv = D.fin 0 ∧
    (startup_state m).valveRegulationQ.manualoutput = D.fin 0 ∧
    (startup_state m).valveRegulationT.manualoutput = D.fin 0 ∧
    (startup_state m).valveRegulationConcentrationA.manualoutput = D.fin 0 ∧
    (startup_state m).substanceId = 0 ∧
    (startup_state m).cfg.k01 = D.fin 0 ∧
    (startup_state m).cfg.k02 = D.fin 0 ∧
    (startup_state m).cfg.EA1 = D.fin 0 ∧
    (startup_state m).cfg.EA2 = D.fin 0 ∧
    (startup_state m).reactor.volume = D.fin 100 ∧
    (startup_state m).cfg.R = D.fin (4157/500) ∧
    (startup_state m).sensorT.objId = UA_NODEID_NULL ∧
    (startup_state m).sensorF.objId = UA_NODEID_NULL ∧
    (startup_state m).sensorConcentrationA.objId = UA_NODEID_NULL ∧
    (startup_state m).sensorConcentrationB.objId = UA_NODEID_NULL ∧
    (startup_state m).valveRegulationQ.objId = UA_NODEID_NULL ∧
    (startup_state m).valveRegulationT.objId = UA_NODEID_NULL ∧
    (startup_state m).valveRegulationConcentrationA.objId = UA_NODEID_NULL ∧
    (startup_state m).reactor.objId = UA_NODEID_NULL := by
  simp [startup_state, model_init, sensor_init, reactor_init, valve_handle_control_init]

/-- Claim C8: if the first `j` fields of `SUBSTANCE_ID`, `K01`, `K02`,
`EA1`, `EA2` attach successfully and field `j` fails, the instance-binding
call returns the error of field `j` immediately and the result state keeps
every earlier attachment (the prior attachments plus the first `j` field
names): nothing is detached or reset. -/
theorem C8_first_failure_no_rollback (env : BindEnv) (s : ServerState) (j : Fin 5)
    (hpre : ∀ i : Fin 5, i < j → attachOk env (mmFields i) = true)
    (hfail : attachOk env (mmFields j) = false) :
    opc_ua_create_math_model_instance env s .good =
      (attachErr env (mmFields j),
       { attached := s.attached ++ mmNames.take j.val,
         ctxSet := s.ctxSet ++ mmNames.take j.val }) := by
  fin_cases j
  · have hf : attachOk env "SUBSTANCE_ID" = false := hfail
    obtain ⟨he, hne⟩ := attach_child_UInt32_fail env s _ hf
    show opc_ua_create_math_model_instance env s .good =
      (attachErr env "SUBSTANCE_ID",
       { attached := s.attached ++ [], ctxSet := s.ctxSet ++ [] })
    simp [opc_ua_create_math_model_instance, he, hne]
  · have h0 : attachOk env "SUBSTANCE_ID" = true := hpre 0 (by decide)
    have hf : attachOk env "K01" = false := hfail
    obtain ⟨he, hne⟩ := attach_child_double_fail env
      { attached := s.attached ++ ["SUBSTANCE_ID"], ctxSet := s.ctxSet ++ ["SUBSTANCE_ID"] }
      "K01" hf
    show opc_ua_create_math_model_instance env s .good =
      (attachErr env "K01",
       { attached := s.attached ++ ["SUBSTANCE_ID"], ctxSet := s.ctxSet ++ ["SUBSTANCE_ID"] })
    simp [opc_ua_create_math_model_instance, attach_child_UInt32_ok env s _ h0, he, hne]
  · have h0 : attachOk env "SUBSTANCE_ID" = true := hpre 0 (by decide)
    have h1 : attachOk env "K01" = true := hpre 1 (by decide)
    have hf : attachOk env "K02" = false := hfail
    obtain ⟨he, hne⟩ := attach_child_double_fail env
      { attached := s.attached ++ ["SUBSTANCE_ID", "K01"],
        ctxSet := s.ctxSet ++ ["SUBSTANCE_ID", "K01"] } "K02" hf
    show opc_ua_create_math_model_instance env s .good =
      (attachErr env "K02",
       { attached := s.attached ++ ["SUBSTANCE_ID", "K01"],
         ctxSet := s.ctxSet ++ ["SUBSTANCE_ID", "K01"] })
    simp [opc_ua_create_math_model_instance, attach_child_UInt32_ok env s _ h0,
      attach_child_double_ok _ _ _ h1, he, hne]
  · have h0 : attachOk env "SUBSTANCE_ID" = true := hpre 0 (by decide)
    have h1 : attachOk env "K01" = true := hpre 1 (by decide)
    have h2 : attachOk env "K02" = true := hpre 2 (by decide)
    have hf : attachOk env "EA1" = false := hfail
    obtain ⟨he, hne⟩ := attach_child_double_fail env
      { attached := s.attached ++ ["SUBSTANCE_ID", "K01", "K02"],
        ctxSet := s.ctxSet ++ ["SUBSTANCE_ID", "K01", "K02"] } "EA1" hf
    show opc_ua_create_math_model_instance env s .good =
      (attachErr env "EA1",
       { attached := s.attached ++ ["SUBSTANCE_ID", "K01", "K02"],
         ctxSet := s.ctxSet ++ ["SUBSTANCE_ID", "K01", "K02"] })
    simp [opc_ua_create_math_model_instance, attach_child_UInt32_ok env s _ h0,
      attach_child_double_ok _ _ _ h1, attach_child_double_ok _ _ _ h2, he, hne]
  · have h0 : attachOk env "SUBSTANCE_ID" = true := hpre 0 (by decide)
    have h1 : attachOk env "K01" = true := hpre 1 (by decide)
    have h2 : attachOk env "K02" = true := hpre 2 (by decide)
    have h3 : attachOk env "EA1" = true := hpre 3 (by decide)
    have hf : attachOk env "EA2" = false := hfail
    obtain ⟨he, hne⟩ := attach_child_double_fail env
      { attached := s.attached ++ ["SUBSTANCE_ID", "K01", "K02", "EA1"],
        ctxSet := s.ctxSet ++ ["SUBSTANCE_ID", "K01", "K02", "EA1"] }
      "EA2" hf
    show opc_ua_create_math_model_instance env s .good =
      (attachErr env "EA2",
       { attached := s.attached ++ ["SUBSTANCE_ID", "K01", "K02", "EA1"],
         ctxSet := s.ctxSet ++ ["SUBSTANCE_ID", "K01", "K02", "EA1"] })
    simp [opc_ua_create_math_model_instance, attach_child_UInt32_ok env s _ h0,
      attach_child_double_ok _ _ _ h1, attach_child_double_ok _ _ _ h2,
      attach_child_double_ok _ _ _ h3, he, hne]

/-- Claim C8 witness: with the data source of `K02` failing, the call
returns that error and `SUBSTANCE_ID` and `K01` stay attached alongside the
previously attached field. -/
theorem C8_first_failure_no_rollback_witness :
    opc_ua_create_math_model_instance envC8 exServer .good =
      (StatusCode.badInternalError,
       { attached := ["REACTOR_VOLUME", "SUBSTANCE_ID", "K01"],
         ctxSet := ["REACTOR_VOLUME", "SUBSTANCE_ID", "K01"] }) :=
  C8_first_failure_no_rollback envC8 exServer 2 (by decide) (by decide)

/-- Claim C9 counterexample: a successful uint32 write through
`writeUInt32DS` overwrites the cell but emits no audit line at all,
contradicting the claim that double and uint32 writes alike emit one. -/
theorem C9_uint32_silent_counterexample :
    (writeUInt32DS (some 0) none (some dvU7)).1 = StatusCode.good ∧
    (writeUInt32DS (some 0) none (some dvU7)).2.1 = some 7 ∧
    (writeUInt32DS (some 0) none (some dvU7)).2.2 = none :=
  ⟨rfl, rfl, rfl⟩

/-- Claim C9 amended: every successful double write (invoked with a
server and node id, as the server does) overwrites the cell and emits an
audit line naming the field by its browse name, falling back to its numeric
node id (or an unknown-node marker) when the name does not resolve; a
successful uint32 write overwrites the cell but emits no audit line. -/
theorem C9_amended_audit_on_success :
    (∀ (resolve : NodeId → Option String) (nid : NodeId) (c : D)
        (range : Option NumericRange) (dv : DataValue) (x : D),
      dv.hasValue = true → rangeRequested range = false →
      dv.value.vtype = some VType.tdouble → dv.value.vdata = some (VPayload.vdouble x) →
      dv.value.arrayLength = 0 → dv.value.arrayDimensionsSize = 0 → isfinite x = true →
      writeDoubleDS resolve true (some nid) (some c) range (some dv) =
        (.good, some x, some (expectedAudit resolve nid x))) ∧
    (∀ (c : ℕ) (range : Option NumericRange) (dv : DataValue) (n : ℕ),
      dv.hasValue = true → rangeRequested range = false →
      dv.value.vtype = some VType.tuint32 → dv.value.vdata = some (VPayload.vuint32 n) →
      dv.value.arrayLength = 0 → dv.value.arrayDimensionsSize = 0 →
      writeUInt32DS (some c) range (some dv) = (.good, some n, none)) := by
  constructor
  · intro resolve nid c range dv x hval hr htype hp hlen hdims hfin
    cases hres : resolve nid <;>
      simp [writeDoubleDS, hval, hr, htype, hp, hlen, hdims, asDouble, hfin,
        expectedAudit, hres, apply_ite]
  · intro c range dv n hval hr htype hp hlen hdims
    simp [writeUInt32DS, hval, hr, htype, hp, hlen, hdims, asUInt32]

/-- Claim C9 amended witness: a double write of 5 succeeds with the
numeric-id fallback audit line; a uint32 write of 7 succeeds silently. -/
theorem C9_amended_audit_on_success_witness :
    writeDoubleDS resolveNone true (some nidEx) (some (D.fin 1)) none (some dvD5) =
      (.good, some (D.fin 5), some (AuditLine.byNumericId 1 42 (D.fin 5))) ∧
    writeUInt32DS (some 0) none (some dvU7) = (.good, some 7, none) := by
  constructor
  · exact (C9_amended_audit_on_success.1 resolveNone nidEx (D.fin 1) none dvD5
      (D.fin 5) rfl rfl rfl rfl rfl rfl rfl).trans rfl
  · exact C9_amended_audit_on_success.2 0 none dvU7 7 rfl rfl rfl rfl rfl rfl

/-- Claim C10: a tick of `model_cb` mutates at most the four sensor
process values (the temperature, flow and inlet-concentration readings
unconditionally, the output reading only under the freshness rule); the
actuators, the reactor, the configuration, the substance identifier and
every NodeId are unchanged. -/
theorem C10_tick_frame (E : ℚ → ℚ) (m : ModelState) :
    (model_cb E m).reactor = m.reactor ∧
    (model_cb E m).cfg = m.cfg ∧
    (model_cb E m).substanceId = m.substanceId ∧
    (model_cb E m).valveRegulationConcentrationA = m.valveRegulationConcentrationA ∧
    (model_cb E m).valveRegulationQ = m.valveRegulationQ ∧
    (model_cb E m).valveRegulationT = m.valveRegulationT ∧
    (model_cb E m).sensorT.objId = m.sensorT.objId ∧
    (model_cb E m).sensorF.objId = m.sensorF.objId ∧
    (model_cb E m).sensorConcentrationA.objId = m.sensorConcentrationA.objId ∧
    (model_cb E m).sensorConcentrationB.objId = m.sensorConcentrationB.objId ∧
    (model_cb E m).sensorT.pv = (tick_pre m).sensorT.pv ∧
    (model_cb E m).sensorF.pv = (tick_pre m).sensorF.pv ∧
    (model_cb E m).sensorConcentrationA.pv = (tick_pre m).sensorConcentrationA.pv ∧
    ((model_cb E m).sensorConcentrationB.pv = m.sensorConcentrationB.pv ∨
      (model_cb E m).sensorConcentrationB.pv = tick_y E m) := by
  by_cases hc : (isfinite (tick_y E m) && dge (tick_y E m) (D.fin 0)) = true
  · simp [model_cb, tick_pre, hc]
  · rw [Bool.not_eq_true] at hc
    simp [model_cb, tick_pre, hc]

end OpcScada
